import Mathlib

/-!
A shallow embedding of `src/public/samples/photos/compress.py`, a short
Python script that scans the working directory for image files, creates a
`resized` output directory, and invokes the external `magick` tool once per
matching file.  Filesystem entries are modelled explicitly, Python path and
string operations are translated to executable Lean functions, and the
script's straight-line control flow becomes a function from an initial
directory listing (plus an oracle for the behaviour of spawned processes)
to the trace of operations it performs.
-/

namespace Compress

/-- A direct entry of the working directory: its file name and whether it is
a directory.  `iterdir` yields such entries; the script never looks at
anything else about them. -/
structure Entry where
  name : String
  isDir : Bool
deriving DecidableEq

/-- The tuple `extensions` from the script:
`(".jpg", ".jpeg", ".png", ".webp", ".bmp")`. -/
def extensions : List String := [".jpg", ".jpeg", ".png", ".webp", ".bmp"]

/-- Python `str.lower()` (ASCII case folding, which is all the script's
extension comparison needs). -/
def lowerStr (s : String) : String := String.mk (s.data.map Char.toLower)

/-- Python `PurePath.suffix`: with `i = name.rfind "."`, the result is
`name[i:]` when `0 < i < len name - 1` and `""` otherwise.  The reverse
index search implements `rfind`. -/
def pySuffix (name : String) : String :=
  let cs := name.data
  match cs.reverse.findIdx? (fun c => c = '.') with
  | none => ""
  | some j =>
    let i := cs.length - 1 - j
    if 0 < i ∧ i < cs.length - 1 then String.mk (cs.drop i) else ""

/-- The loop guard `img.suffix.lower() in extensions`. -/
def isCandidate (e : Entry) : Bool :=
  extensions.contains (lowerStr (pySuffix e.name))

/-- A pure path, as a list of components; pathlib drops `"."` components, so
`Path "."` is the empty list. -/
structure PurePath where
  components : List String
deriving DecidableEq

/-- Path join `p / s` for a single plain component `s`. -/
def PurePath.child (p : PurePath) (s : String) : PurePath :=
  ⟨p.components ++ [s]⟩

/-- `str` of a pure path: components joined with `/`, `"."` when empty. -/
def PurePath.toStr : PurePath → String
  | ⟨[]⟩ => "."
  | ⟨c :: cs⟩ => cs.foldl (fun a d => a ++ "/" ++ d) c

/-- `input_dir = Path(".")`. -/
def input_dir : PurePath := ⟨[]⟩

/-- `output_dir = input_dir / "resized"`. -/
def output_dir : PurePath := input_dir.child "resized"

/-- The argument vector passed to `subprocess.run` for the entry named
`name`: `["magick", str img, "-resize", "512x512>", str out_path]`, where
`img = input_dir / name` (as yielded by `iterdir`) and
`out_path = output_dir / name`. -/
def convertCmd (name : String) : List String :=
  ["magick", (input_dir.child name).toStr, "-resize", "512x512>",
    ((output_dir.child name)).toStr]

/-- Python exceptions the script can surface: `FileExistsError` and
`PermissionError` from `mkdir`, `FileNotFoundError` from `subprocess.run`
when the executable cannot be found. -/
inductive PyErr
  | fileExistsError
  | permissionError
  | fileNotFoundError
deriving DecidableEq

/-- `output_dir.mkdir(exist_ok=True)` acting on the working directory's
listing: succeeds without change when `resized` already exists as a
directory, raises `FileExistsError` when a non-directory entry occupies the
name, creates the directory when the name is free and creation is possible,
and raises `PermissionError` when it is not (`canCreate` abstracts whether
the filesystem permits the creation). -/
def mkdirExistOk (canCreate : Bool) (fs : List Entry) : Except PyErr (List Entry) :=
  match fs.find? (fun e => e.name == "resized") with
  | some e => if e.isDir then .ok fs else .error .fileExistsError
  | none =>
      if canCreate then .ok (fs ++ [⟨"resized", true⟩])
      else .error .permissionError

/-- What happens when `subprocess.run` tries to spawn a command: the
external process runs and exits with some code, or the executable is
unavailable and spawning fails (Python raises `FileNotFoundError`). -/
inductive SpawnOutcome
  | exited (code : Int)
  | noExec
deriving DecidableEq

/-- The `for img in input_dir.iterdir():` loop.  `spawn` is the behaviour of
the operating system on each attempted command.  The result is the list of
argument vectors actually passed to `subprocess.run`, in order, paired with
the uncaught exception that aborted the loop, if any.  A completed process
is ignored whatever its exit code (the script never reads the returned
`CompletedProcess`), so iteration continues; a failed spawn raises, so the
loop stops there. -/
def convLoop (spawn : List String → SpawnOutcome) :
    List Entry → List (List String) × Option PyErr
  | [] => ([], none)
  | e :: rest =>
    if isCandidate e then
      match spawn (convertCmd e.name) with
      | .exited _ =>
          let r := convLoop spawn rest
          (convertCmd e.name :: r.1, r.2)
      | .noExec => ([convertCmd e.name], some .fileNotFoundError)
    else convLoop spawn rest

/-- Operations the script performs, in order: the single `mkdir` call, and
one `runEvt` per `subprocess.run` invocation carrying its argument
vector. -/
inductive Event
  | mkdirEvt
  | runEvt (cmd : List String)
deriving DecidableEq

/-- The whole script, straight-line as in the source: `mkdir` first, then
the conversion loop over the (post-`mkdir`) directory listing.  Returns the
trace of operations, the final listing of the working directory as changed
by the script itself (the external tool writes only inside `resized`), and
the uncaught exception, if any.  When `mkdir` raises, the script dies
before the loop starts. -/
def runScript (canCreate : Bool) (spawn : List String → SpawnOutcome)
    (fs : List Entry) : List Event × List Entry × Option PyErr :=
  match mkdirExistOk canCreate fs with
  | .error err => ([Event.mkdirEvt], fs, some err)
  | .ok fs2 =>
      let r := convLoop spawn fs2
      (Event.mkdirEvt :: r.1.map Event.runEvt, fs2, r.2)

/-- The Directory Scanner as a standalone function: the sub-listing the
loop guard lets through. -/
def candidates (fs : List Entry) : List Entry := fs.filter isCandidate

/-- Modelled from the spec: the external tool's resize operation for the
geometry token `512x512>` is not part of this repository's source; the spec
describes it as "scale an image proportionally so neither dimension exceeds
a target bound, without ever enlarging an image smaller than that bound".
Dimensions are taken as positive rationals so proportional scaling is
exact.  `bound` is the target (512 in the script). -/
def resizeShrinkFit (bound w h : ℚ) : ℚ × ℚ :=
  if w ≤ bound ∧ h ≤ bound then (w, h)
  else
    let s := min (bound / w) (bound / h)
    (s * w, s * h)

end Compress

namespace Compress

/-! Helper lemmas about the loop and the `mkdir` step, shared by the
claim theorems below. -/

/-- When every spawn succeeds (the executable exists), the loop invokes
exactly the candidates, in listing order, whatever the exit codes, and no
exception escapes. -/
theorem convLoop_exited (code : List String → Int) (l : List Entry) :
    convLoop (fun cmd => SpawnOutcome.exited (code cmd)) l =
      ((l.filter isCandidate).map (fun e => convertCmd e.name), none) := by
  induction l with
  | nil => rfl
  | cons e rest ih =>
    by_cases h : isCandidate e
    · simp [convLoop, h, List.filter_cons, ih]
    · simp [convLoop, h, List.filter_cons, ih]

/-- When no spawn can succeed (the executable is missing), the loop attempts
only the first candidate, and `FileNotFoundError` escapes as soon as the
listing has any candidate at all. -/
theorem convLoop_noExec (l : List Entry) :
    convLoop (fun _ => SpawnOutcome.noExec) l =
      (((l.find? isCandidate).map (fun e => convertCmd e.name)).toList,
        (l.find? isCandidate).map (fun _ => PyErr.fileNotFoundError)) := by
  induction l with
  | nil => rfl
  | cons e rest ih =>
    by_cases h : isCandidate e
    · simp [convLoop, h, List.find?_cons, ih]
    · simp [convLoop, h, List.find?_cons, ih]

/-- Every argument vector the loop ever passes to `subprocess.run` is a
`convertCmd` for some file name. -/
theorem convLoop_cmds_shape (spawn : List String → SpawnOutcome) (l : List Entry) :
    ∀ cmd ∈ (convLoop spawn l).1, ∃ n, cmd = convertCmd n := by
  induction l with
  | nil => intro cmd hc; simp [convLoop] at hc
  | cons e rest ih =>
    intro cmd hc
    by_cases h : isCandidate e
    · rcases hs : spawn (convertCmd e.name) with c | _
      · simp [convLoop, h, hs] at hc
        rcases hc with hc | hc
        · exact ⟨e.name, hc⟩
        · exact ih cmd hc
      · simp [convLoop, h, hs] at hc
        exact ⟨e.name, hc⟩
    · simp [convLoop, h] at hc
      exact ih cmd hc

/-- A successful `mkdir` leaves the listing unchanged or appends exactly the
`resized` directory entry. -/
theorem mkdirExistOk_ok_cases (c : Bool) (fs fs2 : List Entry)
    (h : mkdirExistOk c fs = Except.ok fs2) :
    fs2 = fs ∨ fs2 = fs ++ [⟨"resized", true⟩] := by
  unfold mkdirExistOk at h
  rcases hf : fs.find? (fun e => e.name == "resized") with _ | e
  · rw [hf] at h
    rcases c with _ | _ <;> simp_all
  · rw [hf] at h
    rcases hd : e.isDir with _ | _ <;> simp_all

/-- After a successful `mkdir`, a `resized` directory entry is findable in
the listing. -/
theorem mkdirExistOk_ok_find (c : Bool) (fs fs2 : List Entry)
    (h : mkdirExistOk c fs = Except.ok fs2) :
    ∃ e, fs2.find? (fun x => x.name == "resized") = some e ∧ e.isDir = true := by
  unfold mkdirExistOk at h
  rcases hf : fs.find? (fun e => e.name == "resized") with _ | e
  · rw [hf] at h
    rcases c with _ | _
    · simp at h
    · simp at h
      refine ⟨⟨"resized", true⟩, ?_, rfl⟩
      rw [← h, List.find?_append, hf]
      rfl
  · rw [hf] at h
    rcases hd : e.isDir with _ | _
    · simp [hd] at h
    · simp [hd] at h
      exact ⟨e, by rw [← h]; exact hf, hd⟩

end Compress

namespace Compress

/-- C1 (counterexample): with the external tool unavailable (every spawn
fails) and a listing of two candidate files `a.jpg`, `b.jpg`, the program
crashes with an uncaught `FileNotFoundError` raised by `subprocess.run` on
the first file, and the conversion of the subsequent file `b.jpg` is never
attempted — contradicting the claim that an unavailable tool is silently
ignored and iteration continues. -/
theorem toolUnavailable_crashes_cex :
    (convLoop (fun _ => SpawnOutcome.noExec)
        [⟨"a.jpg", false⟩, ⟨"b.jpg", false⟩]).2 = some PyErr.fileNotFoundError ∧
      convertCmd "b.jpg" ∉
        (convLoop (fun _ => SpawnOutcome.noExec)
          [⟨"a.jpg", false⟩, ⟨"b.jpg", false⟩]).1 := by
  decide

/-- C1 (amended): when every invocation spawns successfully, the program
never inspects the exit code — whatever exit code each external process
returns, no exception escapes and every candidate file in the listing is
still attempted, in order.  When the tool is unavailable (spawning fails),
the raised `FileNotFoundError` aborts the run at the first candidate and
subsequent files are not attempted. -/
theorem toolFailure_handling :
    (∀ (code : List String → Int) (l : List Entry),
        convLoop (fun cmd => SpawnOutcome.exited (code cmd)) l =
          ((candidates l).map (fun e => convertCmd e.name), none)) ∧
      (∀ l : List Entry,
        convLoop (fun _ => SpawnOutcome.noExec) l =
          (((l.find? isCandidate).map (fun e => convertCmd e.name)).toList,
            (l.find? isCandidate).map (fun _ => PyErr.fileNotFoundError))) :=
  ⟨fun code l => by simpa [candidates] using convLoop_exited code l,
    fun l => convLoop_noExec l⟩

/-- C2: an entry is selected as a candidate iff its lowercased final suffix
is one of `.jpg`, `.jpeg`, `.png`, `.webp`, `.bmp`; in the directory
`a.jpg`, `b.PNG`, `c.txt`, `notes.md`, exactly `a.jpg` and `b.PNG` are
selected. -/
theorem candidate_selection :
    (∀ (fs : List Entry) (e : Entry),
        e ∈ candidates fs ↔ e ∈ fs ∧ lowerStr (pySuffix e.name) ∈ extensions) ∧
      candidates
          [⟨"a.jpg", false⟩, ⟨"b.PNG", false⟩, ⟨"c.txt", false⟩,
            ⟨"notes.md", false⟩] =
        [⟨"a.jpg", false⟩, ⟨"b.PNG", false⟩] := by
  constructor
  · intro fs e
    simp [candidates, List.mem_filter, isCandidate]
  · decide

/-- C3: the command passed to the external tool is exactly the tool name
`magick` followed by four tokens: the source path, `-resize`, the geometry
`512x512>`, and the destination path, which is the output directory joined
with the candidate's original file name. -/
theorem convert_command_tokens (name : String) :
    convertCmd name = ["magick", name, "-resize", "512x512>", "resized/" ++ name] ∧
      (output_dir.child name).toStr = "resized/" ++ name :=
  ⟨rfl, rfl⟩

/-- C4: output-directory creation is idempotent — a state produced by a
successful creation makes any later creation succeed without change — and
it errors exactly when a non-directory entry occupies the name `resized` or
the name is free but creation is impossible. -/
theorem mkdir_idempotent_and_failure :
    (∀ (c c2 : Bool) (fs fs2 : List Entry),
        mkdirExistOk c fs = Except.ok fs2 → mkdirExistOk c2 fs2 = Except.ok fs2) ∧
      (∀ (c : Bool) (fs : List Entry),
        (∃ err, mkdirExistOk c fs = Except.error err) ↔
          ((∃ e, fs.find? (fun x => x.name == "resized") = some e ∧ e.isDir = false) ∨
            (fs.find? (fun x => x.name == "resized") = none ∧ c = false))) := by
  constructor
  · intro c c2 fs fs2 h
    rcases mkdirExistOk_ok_find c fs fs2 h with ⟨e, hfind, hdir⟩
    unfold mkdirExistOk
    rw [hfind]
    simp [hdir]
  · intro c fs
    unfold mkdirExistOk
    rcases hf : fs.find? (fun e => e.name == "resized") with _ | e
    · rw [hf]
      rcases c with _ | _ <;> simp
    · rw [hf]
      rcases hd : e.isDir with _ | _ <;> simp [hd]

/-- C4 (witness): creating `resized` in an empty directory succeeds, and a
second creation against the resulting state also succeeds, unchanged, even
without permission to create anything. -/
theorem mkdir_idempotent_witness :
    mkdirExistOk false [⟨"resized", true⟩] = Except.ok [⟨"resized", true⟩] :=
  mkdir_idempotent_and_failure.1 true false [] [⟨"resized", true⟩] rfl

/-- C5: the trace of every run starts with the single `mkdir` operation,
and every later operation is a `subprocess.run` invocation: the output
directory step happens exactly once, at startup, before any conversion. -/
theorem mkdir_precedes_conversions (c : Bool)
    (spawn : List String → SpawnOutcome) (fs : List Entry) :
    ∃ rest, (runScript c spawn fs).1 = Event.mkdirEvt :: rest ∧
      ∀ ev ∈ rest, ∃ cmd, ev = Event.runEvt cmd := by
  unfold runScript
  rcases h : mkdirExistOk c fs with err | fs2
  · exact ⟨[], rfl, by simp⟩
  · refine ⟨((convLoop spawn fs2).1).map Event.runEvt, rfl, ?_⟩
    intro ev hev
    rcases List.mem_map.mp hev with ⟨cmd, _, rfl⟩
    exact ⟨cmd, rfl⟩

/-- C6: one external invocation per candidate file, issued in
directory-listing order: the sequence of argument vectors is exactly the
image of the candidate sub-listing, each invocation's outcome being
consumed before the next entry is examined (the loop is sequential), and in
particular the number of invocations equals the number of candidates. -/
theorem one_invocation_per_candidate_in_order (code : List String → Int)
    (l : List Entry) :
    (convLoop (fun cmd => SpawnOutcome.exited (code cmd)) l).1 =
        (candidates l).map (fun e => convertCmd e.name) ∧
      ((convLoop (fun cmd => SpawnOutcome.exited (code cmd)) l).1).length =
        (candidates l).length := by
  have h := convLoop_exited code l
  rw [h]
  exact ⟨rfl, by simp [candidates]⟩

/-- C7: the scan looks only at direct entries — every candidate comes from
the listing itself — and the filter depends only on the entry's name, never
on whether it is a directory: the `resized` directory is excluded by its
suffix, while a directory named with an image suffix passes. -/
theorem scan_nonrecursive_extension_filter :
    (∀ (n : String) (b b2 : Bool), isCandidate ⟨n, b⟩ = isCandidate ⟨n, b2⟩) ∧
      isCandidate ⟨"resized", true⟩ = false ∧
      isCandidate ⟨"evil.jpg", true⟩ = true ∧
      (∀ fs : List Entry, candidates fs ⊆ fs) ∧
      candidates [⟨"a.jpg", false⟩, ⟨"resized", true⟩] = [⟨"a.jpg", false⟩] := by
  refine ⟨fun n b b2 => rfl, by decide, by decide, fun fs => ?_, by decide⟩
  exact List.filter_subset' fs

/-- C8: under the spec-modelled semantics of the `512x512>` geometry, an
image exceeding 512 in either dimension comes out with its larger dimension
at most 512 and its aspect ratio preserved (cross-multiplication of the old
and new dimensions agrees), while an image below 512 in both dimensions is
returned with identical dimensions — never upscaled. -/
theorem resize_fits_and_never_upscales (w h : ℚ) (hw : 0 < w) (hh : 0 < h) :
    ((512 < w ∨ 512 < h) →
        max (resizeShrinkFit 512 w h).1 (resizeShrinkFit 512 w h).2 ≤ 512 ∧
          (resizeShrinkFit 512 w h).1 * h = (resizeShrinkFit 512 w h).2 * w) ∧
      (w < 512 ∧ h < 512 → resizeShrinkFit 512 w h = (w, h)) := by
  constructor
  · intro hbig
    have hcond : ¬(w ≤ 512 ∧ h ≤ 512) := by
      rcases hbig with hb | hb
      · exact fun hc => absurd hc.1 (not_le.mpr hb)
      · exact fun hc => absurd hc.2 (not_le.mpr hb)
    have hres : resizeShrinkFit 512 w h =
        (min ((512 : ℚ) / w) ((512 : ℚ) / h) * w,
          min ((512 : ℚ) / w) ((512 : ℚ) / h) * h) := by
      rw [resizeShrinkFit, if_neg hcond]
    rw [hres]
    refine ⟨max_le ?_ ?_, by ring⟩
    · calc min ((512 : ℚ) / w) ((512 : ℚ) / h) * w ≤ 512 / w * w :=
            mul_le_mul_of_nonneg_right (min_le_left _ _) (le_of_lt hw)
        _ = 512 := div_mul_cancel₀ _ (ne_of_gt hw)
    · calc min ((512 : ℚ) / w) ((512 : ℚ) / h) * h ≤ 512 / h * h :=
            mul_le_mul_of_nonneg_right (min_le_right _ _) (le_of_lt hh)
        _ = 512 := div_mul_cancel₀ _ (ne_of_gt hh)
  · intro hsmall
    rw [resizeShrinkFit, if_pos ⟨le_of_lt hsmall.1, le_of_lt hsmall.2⟩]

/-- C8 (witness): a 1024×256 input is scaled to 512×128 — larger dimension
512, aspect ratio preserved — and a 100×200 input comes out 100×200. -/
theorem resize_witness :
    (max (resizeShrinkFit 512 1024 256).1 (resizeShrinkFit 512 1024 256).2 ≤ 512 ∧
        (resizeShrinkFit 512 1024 256).1 * 256 =
          (resizeShrinkFit 512 1024 256).2 * 1024) ∧
      resizeShrinkFit 512 100 200 = (100, 200) :=
  ⟨(resize_fits_and_never_upscales 1024 256 (by norm_num) (by norm_num)).1
      (Or.inl (by norm_num)),
    (resize_fits_and_never_upscales 100 200 (by norm_num) (by norm_num)).2
      ⟨by norm_num, by norm_num⟩⟩

/-- C9: candidate selection looks only at the final dot-separated suffix:
a file named exactly `.jpg` has an empty suffix and is excluded,
`photo.jpg.txt` has suffix `.txt` and is excluded, `archive.tar.png` has
suffix `.png` and is included regardless of the earlier `.tar`. -/
theorem final_suffix_only :
    pySuffix ".jpg" = "" ∧ isCandidate ⟨".jpg", false⟩ = false ∧
      pySuffix "photo.jpg.txt" = ".txt" ∧
      isCandidate ⟨"photo.jpg.txt", false⟩ = false ∧
      pySuffix "archive.tar.png" = ".png" ∧
      isCandidate ⟨"archive.tar.png", false⟩ = true := by
  decide

/-- C10: the script's own filesystem effect is confined to creating the
`resized` directory — every pre-existing entry of the working directory
survives unchanged, the final listing is the initial one possibly extended
by exactly the `resized` directory entry, and every operation in the trace
is either that `mkdir` or a `subprocess.run` invocation that receives a
candidate's path purely as an argument-vector string. -/
theorem script_mutates_nothing_but_resized (c : Bool)
    (spawn : List String → SpawnOutcome) (fs : List Entry) :
    (∀ e ∈ fs, e ∈ (runScript c spawn fs).2.1) ∧
      ((runScript c spawn fs).2.1 = fs ∨
        (runScript c spawn fs).2.1 = fs ++ [⟨"resized", true⟩]) ∧
      (∀ ev ∈ (runScript c spawn fs).1,
        ev = Event.mkdirEvt ∨ ∃ n, ev = Event.runEvt (convertCmd n)) := by
  unfold runScript
  rcases h : mkdirExistOk c fs with err | fs2
  · exact ⟨fun e he => he, Or.inl rfl, by simp⟩
  · have hcases := mkdirExistOk_ok_cases c fs fs2 h
    refine ⟨?_, hcases, ?_⟩
    · intro e he
      rcases hcases with h2 | h2 <;> rw [h2]
      · exact he
      · exact List.mem_append_left _ he
    · intro ev hev
      rcases hev with _ | ⟨_, hev⟩
      · exact Or.inl rfl
      · rcases List.mem_map.mp hev with ⟨cmd, hcmd, rfl⟩
        rcases convLoop_cmds_shape spawn fs2 cmd hcmd with ⟨n, rfl⟩
        exact Or.inr ⟨n, rfl⟩

/-- C10 (witness): in a directory holding one file `a.jpg`, that file is
still present after the run. -/
theorem script_frame_witness :
    (⟨"a.jpg", false⟩ : Entry) ∈
      (runScript true (fun _ => SpawnOutcome.exited 0) [⟨"a.jpg", false⟩]).2.1 :=
  (script_mutates_nothing_but_resized true (fun _ => SpawnOutcome.exited 0)
      [⟨"a.jpg", false⟩]).1 ⟨"a.jpg", false⟩ (by decide)

end Compress
